import Mathlib

/-!
Shallow embedding of `src/verify-direct.py` (Claw Domains direct contract
verification script) and proofs about it.

The script is a single linear automation program: it ABI-encodes constructor
arguments for a fixed four-contract registry, loads a compiler build-info
artifact, submits each contract to an explorer verification API, polls each
submission to a terminal state and aggregates a pass/fail report.

Modelling conventions:
* Python strings are Lean `String` (lists of characters); the few string
  methods the script uses (`lower`, `replace`, `zfill`, `endswith`, `hex`,
  slicing) are embedded one-to-one as functions on `List Char` below.
* Python `int` is `Int` (arbitrary precision, negatives included); `Nat` is
  used where the source value is known non-negative.
* The filesystem and the remote verification service are the program's
  environment: they are modelled by an explicit `Env` record holding the
  directory listing, the (already JSON-decoded) build-info fields, and the
  mock service's response functions.  Fallible Python code (uncaught
  exceptions) is modelled with `Except PyError`.
-/

set_option maxRecDepth 10000

namespace VerifyDirect

/-! ## Embedded Python string primitives -/

/-- Python `str.zfill(width)`: left-pad with `'0'` to `width` characters,
keeping a leading sign character (if any) in front of the padding.  Strings
already at least `width` long are returned unchanged (the pad count is then
`0` by truncated `Nat` subtraction). -/
def pyZfillL (width : Nat) (l : List Char) : List Char :=
  match l with
  | [] => List.replicate (width - l.length) '0'
  | c :: rest =>
    if c = '+' ∨ c = '-' then c :: (List.replicate (width - l.length) '0' ++ rest)
    else List.replicate (width - l.length) '0' ++ (c :: rest)

/-- The lowercase hexadecimal digit for `n < 16`, as produced by Python
`hex()`. -/
def hexDigit (n : Nat) : Char :=
  if n < 10 then Char.ofNat (48 + n) else Char.ofNat (87 + n)

/-- Digit-accumulating loop of Python `hex()` on a non-negative value.  The
`fuel` argument makes the recursion structural (so that the kernel can
evaluate it); `fuel = n` is always enough since `n / 16 < n` for `n ≠ 0`. -/
def natToHexAux : Nat → Nat → List Char → List Char
  | 0, _, acc => acc
  | fuel + 1, n, acc =>
    if n = 0 then acc else natToHexAux fuel (n / 16) (hexDigit (n % 16) :: acc)

/-- The digits of Python `hex(n)` for `n : Nat`, without the `0x` prefix
(`hex(0)` has digit string `"0"`). -/
def pyHexNat (n : Nat) : List Char :=
  if n = 0 then ['0'] else natToHexAux n n []

/-- Python `hex(val)`: `0x`-prefixed lowercase hexadecimal, with a leading
`'-'` for negative values (Python does not use two's complement). -/
def pyHex (val : Int) : List Char :=
  if val < 0 then '-' :: '0' :: 'x' :: pyHexNat val.natAbs
  else '0' :: 'x' :: pyHexNat val.toNat

/-- Python `str.replace("0x", "")`: remove every non-overlapping occurrence
of the two-character substring `0x`, scanning left to right. -/
def pyReplace0xL : List Char → List Char
  | [] => []
  | [c] => [c]
  | c₁ :: c₂ :: rest =>
    if c₁ = '0' ∧ c₂ = 'x' then pyReplace0xL rest
    else c₁ :: pyReplace0xL (c₂ :: rest)

/-- Python `s.endswith(suffix)`. -/
def pyEndsWith (s suffix : String) : Bool :=
  suffix.data.isSuffixOf s.data

/-- Python `f"{x}"` on an optional string (`str(None) = "None"`). -/
def pyStr : Option String → String
  | some s => s
  | none => "None"

/-! ## Constants and the contract registry (`CONTRACTS`, line 14-49) -/

def VERIFY_URL : String := "https://api-explorer-verify.testnet.abs.xyz/contract_verification"

def EXPLORER_URL : String := "https://explorer.testnet.abs.xyz"

/-- Deployer address (used as treasury), line 18. -/
def DEPLOYER : String := "0x00CC14AF7d9ce9Be4fdf9aE858632a00287edE11"

/-- One entry of the `CONTRACTS` dict: address, source path and the
ABI-encoded constructor arguments (`none` is the Python `None`
placeholder later filled in by `compute_constructor_args`). -/
structure ContractInfo where
  address : String
  source : String
  args : Option String
  deriving DecidableEq, Repr

/-- The fixed `CONTRACTS` registry, in Python dict insertion order
(lines 22-49). -/
def CONTRACTS : List (String × ContractInfo) :=
  [("ClawRenderer",
    ⟨"0x90f493bfB740F00E6Cf280f4B9A6943d4b96d274", "contracts/ClawRenderer.sol", some "0x"⟩),
   ("ClawRegistry",
    ⟨"0x01949e45FabCD684bcD4747966145140aB4778E5", "contracts/ClawRegistry.sol", none⟩),
   ("ClawEvolution",
    ⟨"0xed61D90c46343D0399de04a2CDEd195A217aa583", "contracts/ClawEvolution.sol", none⟩),
   ("ClawReputation",
    ⟨"0x2E031ad274261e1a58C033d61F3b0f310c419904", "contracts/ClawReputation.sol", none⟩)]

/-- Dict read `contracts[name]`. -/
def lookupInfo (contracts : List (String × ContractInfo)) (name : String) : Option ContractInfo :=
  (contracts.find? fun p => p.1 == name).map Prod.snd

/-- Dict write `contracts[name]["args"] = a`. -/
def setArgs (name a : String) (contracts : List (String × ContractInfo)) :
    List (String × ContractInfo) :=
  contracts.map fun p => if p.1 == name then (p.1, ⟨p.2.address, p.2.source, some a⟩) else p

/-! ## Argument encoder (lines 51-71) -/

/-- `encode_address(addr)` (line 51-53):
`addr.lower().replace("0x", "").zfill(64)`. -/
def encode_address (addr : String) : String :=
  ⟨pyZfillL 64 (pyReplace0xL (addr.data.map Char.toLower))⟩

/-- `encode_uint256(val)` (line 55-57): `hex(val)[2:].zfill(64)`. -/
def encode_uint256 (val : Int) : String :=
  ⟨pyZfillL 64 ((pyHex val).drop 2)⟩

/-- `compute_constructor_args()` (lines 59-71).  The Python function mutates
the global `CONTRACTS` dict in place; here it is the corresponding
state-passing function on the registry.  The `getD ""` defaults are
unreachable on the fixed registry (both keys are always present, as in the
Python dict reads `CONTRACTS["ClawRenderer"]["address"]` and
`CONTRACTS["ClawRegistry"]["address"]`). -/
def compute_constructor_args (contracts : List (String × ContractInfo)) :
    List (String × ContractInfo) :=
  let renderer_addr := ((lookupInfo contracts "ClawRenderer").map ContractInfo.address).getD ""
  let registry_addr := ((lookupInfo contracts "ClawRegistry").map ContractInfo.address).getD ""
  let c₁ := setArgs "ClawRegistry"
    ("0x" ++ encode_address renderer_addr ++ encode_uint256 500000000000000 ++
      encode_address DEPLOYER) contracts
  let c₂ := setArgs "ClawEvolution" ("0x" ++ encode_address registry_addr) c₁
  setArgs "ClawReputation" ("0x" ++ encode_address registry_addr) c₂

/-! ## Environment: filesystem and remote verification service

The script's effects are `os.listdir`/`open`/`json.load` on the build-info
directory and HTTP calls against the explorer API.  Both are modelled by an
explicit environment record.  The mock service is keyed by the request's
`contractName` field (`f"{source}:{name}"`); in this program every other
request field is determined by that key together with the loaded build
artifacts, so no generality is lost for the properties proved here. -/

/-- Outcome of the `POST` in `submit_verification`:
a 2xx response whose body is the integer verification id, a non-2xx
`urllib.error.HTTPError` with a status code and error body, or a
transport-level failure (e.g. `URLError` on connection refused) that is not
an `HTTPError`. -/
inductive SubmitResp where
  | ok (id : Nat)
  | httpError (code : Nat) (body : String)
  | transportError
  deriving DecidableEq, Repr

/-- The JSON object returned by a status poll: its optional `status` and
`error` fields (`none` models an absent field, read via `.get` with a
default in the source). -/
structure StatusRecord where
  status : Option String
  error : Option String
  deriving DecidableEq, Repr

/-- Uncaught Python exceptions relevant to this program:
`IndexError` from `files[0]` on an empty list, and `urllib.error.URLError`
from a transport failure. -/
inductive PyError where
  | indexError
  | urlError
  deriving DecidableEq, Repr

/-- The program's environment: the `artifacts-zk/build-info` directory
listing, the decoded fields of the first build-info file (`input`,
`solcVersion`, and the first `zk_version` marker found by the metadata scan,
if any), and the mock verification service.  `submit key` is the service's
response to the submission whose `contractName` field is `key`;
`polls id i` is the response to the `(i+1)`-th status `GET` for
verification id `id`. -/
structure Env where
  buildFiles : List String
  buildInput : String
  solcVersion : String
  zkMetadataVersion : Option String
  submit : String → SubmitResp
  polls : Nat → Nat → StatusRecord

/-! ## Artifact loader (lines 73-94) -/

/-- `load_source_code()` (lines 73-79): filter the directory listing to
`.json` files and read `build_info["input"]` and `build_info["solcVersion"]`
from the first one.  `files[0]` on an empty list raises `IndexError`.  The
JSON decoding of the file contents is abstracted into the environment's
`buildInput`/`solcVersion` fields. -/
def load_source_code (env : Env) : Except PyError (String × String) :=
  match env.buildFiles.filter (fun f => pyEndsWith f ".json") with
  | [] => .error .indexError
  | _ :: _ => .ok (env.buildInput, env.solcVersion)

/-- `get_zksolc_version()` (lines 81-94): same listing and `files[0]` read,
then a best-effort scan of `output.contracts` metadata for a `zk_version`
marker (abstracted into `env.zkMetadataVersion`), formatted with a leading
`"v"`; falls back to `"v1.5.10"` when no marker exists anywhere. -/
def get_zksolc_version (env : Env) : Except PyError String :=
  match env.buildFiles.filter (fun f => pyEndsWith f ".json") with
  | [] => .error .indexError
  | _ :: _ =>
    match env.zkMetadataVersion with
    | some v => .ok ("v" ++ v)
    | none => .ok "v1.5.10"

/-! ## Verification client (lines 96-152) -/

/-- `submit_verification(...)` (lines 96-124): build the request and `POST`
it.  Only `urllib.error.HTTPError` is caught (the error body is logged and
`None` returned); any other exception from `urlopen` — e.g. a
connection-refused `URLError` — propagates to the caller.  The
`source_code`, `solc_version` and `zksolc_version` arguments go into the
request body verbatim, which the mock service keys by its `contractName`
field. -/
def submit_verification (env : Env) (contract_name : String) (contract_info : ContractInfo)
    (_source_code _solc_version _zksolc_version : String) : Except PyError (Option Nat) :=
  match env.submit (contract_info.source ++ ":" ++ contract_name) with
  | .ok id => .ok (some id)
  | .httpError _ _ => .ok none
  | .transportError => .error .urlError

/-- `check_status(verification_id)` (lines 126-134), at the `i`-th poll of
the current wait loop: the mock service's `i`-th response for this id. -/
def check_status (polls : Nat → StatusRecord) (i : Nat) : StatusRecord :=
  polls i

/-- The `for i in range(max_retries)` loop of `wait_for_verification`
(lines 138-151), structurally recursive on the remaining attempt budget;
`i` is the source loop index.  Besides the `(success, error)` result it
also counts the number of `check_status` calls performed, so that the poll
budget can be stated.  The `in_progress`/`queued` branch and the
unknown-status branch of the source differ only in their log line: both
keep polling. -/
def waitLoop (polls : Nat → StatusRecord) : Nat → Nat → (Bool × Option String) × Nat
  | 0, _ => ((false, some "Timeout waiting for verification"), 0)
  | remaining + 1, i =>
    let status := check_status polls i
    let state := status.status.getD "unknown"
    if state = "successful" then ((true, none), 1)
    else if state = "failed" then ((false, some (status.error.getD "Unknown error")), 1)
    else
      let r := waitLoop polls remaining (i + 1)
      (r.1, r.2 + 1)

/-- `wait_for_verification(verification_id, contract_name, max_retries=15)`
(lines 136-152): poll until `successful`, `failed`, or budget exhaustion
(then `(False, "Timeout waiting for verification")`). -/
def wait_for_verification (polls : Nat → StatusRecord) (max_retries : Nat := 15) :
    Bool × Option String :=
  (waitLoop polls max_retries 0).1

/-- Number of `check_status` calls performed by one `wait_for_verification`
run (instrumentation of the same loop). -/
def wait_polls (polls : Nat → StatusRecord) (max_retries : Nat := 15) : Nat :=
  (waitLoop polls max_retries 0).2

/-! ## Orchestrator (`main`, lines 154-199) -/

/-- One iteration of the `for name, info in CONTRACTS.items()` loop in
`main` (lines 167-187): submit, and on a `None` verification id record
`"FAILED (submission error)"` and `continue`; otherwise poll and record
`"VERIFIED"` or `"FAILED: {error}"`. -/
def verifyOne (env : Env) (name : String) (info : ContractInfo)
    (source_code solc_version zksolc_version : String) : Except PyError String :=
  match submit_verification env name info source_code solc_version zksolc_version with
  | .error e => .error e
  | .ok none => .ok "FAILED (submission error)"
  | .ok (some vid) =>
    match wait_for_verification (env.polls vid) with
    | (true, _) => .ok "VERIFIED"
    | (false, err) => .ok ("FAILED: " ++ pyStr err)

/-- The whole contract loop of `main`, accumulating the `results` dict in
insertion order; an uncaught exception in any iteration aborts the rest. -/
def verifyAll (env : Env) (source_code solc_version zksolc_version : String) :
    List (String × ContractInfo) → Except PyError (List (String × String))
  | [] => .ok []
  | (name, info) :: rest =>
    match verifyOne env name info source_code solc_version zksolc_version with
    | .error e => .error e
    | .ok r =>
      match verifyAll env source_code solc_version zksolc_version rest with
      | .error e => .error e
      | .ok rs => .ok ((name, r) :: rs)

/-- `main()` (lines 154-196): resolve constructor args, load the build
artifacts, run the loop, and return the results report together with
`all(r == "VERIFIED" for r in results.values())`. -/
def main (env : Env) : Except PyError (List (String × String) × Bool) :=
  match load_source_code env with
  | .error e => .error e
  | .ok (source_code, solc_version) =>
    match get_zksolc_version env with
    | .error e => .error e
    | .ok zksolc_version =>
      match verifyAll env source_code solc_version zksolc_version
          (compute_constructor_args CONTRACTS) with
      | .error e => .error e
      | .ok results => .ok (results, results.all fun p => p.2 == "VERIFIED")

/-- `sys.exit(0 if main() else 1)` (lines 198-199).  An uncaught exception
propagates out of `main` before `sys.exit` runs: the process then
terminates abnormally with a traceback and no final report, modelled as
`.error`. -/
def program_exit_code (env : Env) : Except PyError Nat :=
  match main env with
  | .ok (_, true) => .ok 0
  | .ok (_, false) => .ok 1
  | .error e => .error e

/-! ## Spec-side notions: hex character sets and hex decoding -/

/-- The sixteen lowercase hexadecimal digit characters. -/
def hexCharsLower : List Char := "0123456789abcdef".data

/-- All 22 hexadecimal digit characters, in either letter case. -/
def hexCharsAll : List Char := hexCharsLower ++ "ABCDEF".data

/-- Numeric value of a lowercase hexadecimal digit character. -/
def hexCharVal (c : Char) : Nat :=
  if c.toNat ≤ 57 then c.toNat - 48 else c.toNat - 87

/-- The number denoted by a big-endian string of lowercase hex digits. -/
def fromHex (l : List Char) : Nat :=
  l.foldl (fun a c => 16 * a + hexCharVal c) 0

/-- Reference form of the hex digit string of `n` (empty for `n = 0`),
by plain well-founded recursion; used to reason about `natToHexAux`. -/
def hexDigitsRec (n : Nat) : List Char :=
  if h : n = 0 then [] else hexDigitsRec (n / 16) ++ [hexDigit (n % 16)]
termination_by n
decreasing_by exact Nat.div_lt_self (Nat.pos_of_ne_zero h) (by norm_num)

/-! ## Lemmas about the embedded string primitives -/

theorem head?_mem {α : Type _} {l : List α} {c : α} (h : l.head? = some c) : c ∈ l := by
  cases l with
  | nil => cases h
  | cons a t =>
    rw [List.head?_cons] at h
    injection h with h
    rw [h]
    exact List.mem_cons_self c t

theorem natToHexAux_eq : ∀ (fuel n : Nat) (acc : List Char), n ≤ fuel →
    natToHexAux fuel n acc = hexDigitsRec n ++ acc := by
  intro fuel
  induction fuel with
  | zero =>
    intro n acc h
    have hn : n = 0 := Nat.le_zero.mp h
    subst hn
    rw [hexDigitsRec]
    simp [natToHexAux]
  | succ fuel ih =>
    intro n acc h
    by_cases hn : n = 0
    · subst hn
      rw [hexDigitsRec]
      simp [natToHexAux]
    · have hdiv : n / 16 ≤ fuel := by
        have := Nat.div_lt_self (Nat.pos_of_ne_zero hn) (by norm_num : (1 : Nat) < 16)
        omega
      rw [natToHexAux, if_neg hn, ih (n / 16) (hexDigit (n % 16) :: acc) hdiv]
      conv_rhs => rw [hexDigitsRec, dif_neg hn]
      simp

theorem pyHexNat_eq (n : Nat) : pyHexNat n = if n = 0 then ['0'] else hexDigitsRec n := by
  unfold pyHexNat
  by_cases hn : n = 0
  · simp [hn]
  · rw [if_neg hn, if_neg hn, natToHexAux_eq n n [] le_rfl, List.append_nil]

theorem hexDigitsRec_length_le : ∀ (k n : Nat), n < 16 ^ k → (hexDigitsRec n).length ≤ k := by
  intro k
  induction k with
  | zero =>
    intro n h
    simp only [pow_zero, Nat.lt_one_iff] at h
    subst h
    rw [hexDigitsRec]
    simp
  | succ k ih =>
    intro n h
    by_cases hn : n = 0
    · subst hn
      rw [hexDigitsRec]
      simp
    · rw [hexDigitsRec, dif_neg hn, List.length_append]
      have hdiv : n / 16 < 16 ^ k := by
        rw [pow_succ] at h
        exact (Nat.div_lt_iff_lt_mul (by norm_num)).mpr h
      have := ih (n / 16) hdiv
      simp only [List.length_singleton]
      omega

theorem hexDigit_mem : ∀ m, m < 16 → hexDigit m ∈ hexCharsLower := by decide

theorem hexDigitsRec_mem : ∀ n, ∀ c ∈ hexDigitsRec n, c ∈ hexCharsLower := by
  intro n
  induction n using Nat.strong_induction_on with
  | _ n ih =>
    intro c hc
    by_cases hn : n = 0
    · subst hn
      rw [hexDigitsRec] at hc
      simp at hc
    · rw [hexDigitsRec, dif_neg hn] at hc
      rcases List.mem_append.mp hc with h | h
      · exact ih (n / 16) (Nat.div_lt_self (Nat.pos_of_ne_zero hn) (by norm_num)) c h
      · simp only [List.mem_singleton] at h
        subst h
        exact hexDigit_mem _ (Nat.mod_lt _ (by norm_num))

theorem pyHexNat_mem (n : Nat) : ∀ c ∈ pyHexNat n, c ∈ hexCharsLower := by
  rw [pyHexNat_eq]
  by_cases hn : n = 0
  · rw [if_pos hn]
    decide
  · rw [if_neg hn]
    exact hexDigitsRec_mem n

theorem pyHexNat_length_le (n : Nat) (h : n < 16 ^ 64) : (pyHexNat n).length ≤ 64 := by
  rw [pyHexNat_eq]
  by_cases hn : n = 0
  · rw [if_pos hn]
    simp
  · rw [if_neg hn]
    exact hexDigitsRec_length_le 64 n h

theorem hexCharVal_hexDigit : ∀ m, m < 16 → hexCharVal (hexDigit m) = m := by decide

theorem foldl_hexDigitsRec : ∀ (n a : Nat),
    (hexDigitsRec n).foldl (fun a c => 16 * a + hexCharVal c) a =
      a * 16 ^ (hexDigitsRec n).length + n := by
  intro n
  induction n using Nat.strong_induction_on with
  | _ n ih =>
    intro a
    by_cases hn : n = 0
    · subst hn
      rw [hexDigitsRec]
      simp
    · rw [hexDigitsRec, dif_neg hn, List.foldl_append,
        ih (n / 16) (Nat.div_lt_self (Nat.pos_of_ne_zero hn) (by norm_num)) a]
      simp only [List.foldl_cons, List.foldl_nil, List.length_append, List.length_singleton]
      rw [hexCharVal_hexDigit _ (Nat.mod_lt _ (by norm_num))]
      have : 16 * (a * 16 ^ (hexDigitsRec (n / 16)).length + n / 16) + n % 16 =
          a * 16 ^ ((hexDigitsRec (n / 16)).length + 1) + (16 * (n / 16) + n % 16) := by
        ring
      rw [this, Nat.div_add_mod]

theorem foldl_replicate_zero : ∀ k : Nat,
    (List.replicate k '0').foldl (fun a c => 16 * a + hexCharVal c) 0 = 0 := by
  intro k
  induction k with
  | zero => rfl
  | succ k ih =>
    rw [List.replicate_succ, List.foldl_cons]
    have h0 : 16 * 0 + hexCharVal '0' = 0 := by decide
    rw [h0, ih]

theorem fromHex_replicate_append (k : Nat) (l : List Char) :
    fromHex (List.replicate k '0' ++ l) = fromHex l := by
  unfold fromHex
  rw [List.foldl_append, foldl_replicate_zero]

theorem fromHex_pyHexNat (n : Nat) : fromHex (pyHexNat n) = n := by
  rw [pyHexNat_eq]
  by_cases hn : n = 0
  · rw [if_pos hn, hn]
    decide
  · rw [if_neg hn]
    unfold fromHex
    rw [foldl_hexDigitsRec n 0]
    simp

theorem pyZfillL_eq (w : Nat) (l : List Char)
    (h : ∀ c, l.head? = some c → c ≠ '+' ∧ c ≠ '-') :
    pyZfillL w l = List.replicate (w - l.length) '0' ++ l := by
  cases l with
  | nil => simp [pyZfillL]
  | cons c rest =>
    have hc := h c (by rw [List.head?_cons])
    simp only [pyZfillL]
    rw [if_neg]
    intro hor
    rcases hor with h1 | h1
    · exact hc.1 h1
    · exact hc.2 h1

theorem mem_hexCharsLower_ne : ∀ c ∈ hexCharsLower, c ≠ '+' ∧ c ≠ '-' ∧ c ≠ 'x' := by decide

theorem toLower_mem_hexCharsLower : ∀ c ∈ hexCharsAll, Char.toLower c ∈ hexCharsLower := by
  decide

theorem pyReplace0xL_no_x : ∀ l : List Char, (∀ c ∈ l, c ≠ 'x') → pyReplace0xL l = l
  | [], _ => rfl
  | [_], _ => rfl
  | c₁ :: c₂ :: rest, h => by
    have hc₂ : c₂ ≠ 'x' := h c₂ (by simp)
    have hcond : ¬ (c₁ = '0' ∧ c₂ = 'x') := fun hc => hc₂ hc.2
    simp only [pyReplace0xL, if_neg hcond]
    rw [pyReplace0xL_no_x (c₂ :: rest) fun c hc => h c (List.mem_cons_of_mem _ hc)]

/-! ## Claim theorems: argument encoder (C1, C5, C6, C7, C8) -/

/-- C1: `compute_constructor_args` sets ClawRegistry's `args` field to
`"0x"` followed by `encode_address` of ClawRenderer's address, then
`encode_uint256 500000000000000`, then `encode_address` of the deployer
address, and sets both ClawEvolution's and ClawReputation's `args` fields
to `"0x"` followed by `encode_address` of ClawRegistry's address.  With the
fixed registry constants the computation is deterministic: applying it
again to the already-resolved registry reproduces it byte for byte. -/
theorem compute_constructor_args_spec :
    (lookupInfo (compute_constructor_args CONTRACTS) "ClawRegistry").map ContractInfo.args =
      some (some ("0x" ++ encode_address "0x90f493bfB740F00E6Cf280f4B9A6943d4b96d274" ++
        encode_uint256 500000000000000 ++ encode_address DEPLOYER)) ∧
    (lookupInfo (compute_constructor_args CONTRACTS) "ClawEvolution").map ContractInfo.args =
      some (some ("0x" ++ encode_address "0x01949e45FabCD684bcD4747966145140aB4778E5")) ∧
    (lookupInfo (compute_constructor_args CONTRACTS) "ClawReputation").map ContractInfo.args =
      some (some ("0x" ++ encode_address "0x01949e45FabCD684bcD4747966145140aB4778E5")) ∧
    compute_constructor_args (compute_constructor_args CONTRACTS) =
      compute_constructor_args CONTRACTS := by
  decide

/-- C5 (code-bug evidence): for the negative input `-1`, `encode_uint256`
does not fail with an encoding error.  It returns the 64-character string
of 62 `'0'`s followed by `"x1"` — Python `hex(-1)` is `"-0x1"`, slicing off
the first two characters leaves `"x1"`, and `zfill` pads it — so the
function silently emits a string that is not even hexadecimal (it contains
the letter `x`), instead of raising as the specification requires. -/
theorem encode_uint256_negative_returns_string :
    encode_uint256 (-1) = ⟨List.replicate 62 '0' ++ ['x', '1']⟩ ∧
    'x' ∈ (encode_uint256 (-1)).data ∧ 'x' ∉ hexCharsLower := by
  decide

/-- C6 counterexample: the claim quantifies over every non-negative
integer, but `encode_uint256` of `2 ^ 256` (the first value outside the
`uint256` range) returns 65 characters, not 64: `zfill` never truncates. -/
theorem encode_uint256_length_cex :
    ¬ ((encode_uint256 ((2 ^ 256 : Nat) : Int)).length = 64) ∧
    (encode_uint256 ((2 ^ 256 : Nat) : Int)).length = 65 := by
  decide

/-- C6 (amended): for every non-negative integer below `2 ^ 256` — i.e.
every value actually representable as a `uint256` — `encode_uint256`
returns exactly 64 lowercase hexadecimal characters: the input's
hexadecimal digit string left-padded with `'0'`s to 64 characters; decoding
the 64 digits recovers the input. -/
theorem encode_uint256_uint256_range (n : Nat) (h : n < 2 ^ 256) :
    (encode_uint256 (n : Int)).data =
      List.replicate (64 - (pyHexNat n).length) '0' ++ pyHexNat n ∧
    (encode_uint256 (n : Int)).length = 64 ∧
    (∀ c ∈ (encode_uint256 (n : Int)).data, c ∈ hexCharsLower) ∧
    fromHex (encode_uint256 (n : Int)).data = n := by
  have h16 : n < 16 ^ 64 := by
    have hpow : (16 : Nat) ^ 64 = 2 ^ 256 := by
      rw [show (16 : Nat) = 2 ^ 4 by norm_num, ← pow_mul]
    rw [hpow]
    exact h
  have hlen : (pyHexNat n).length ≤ 64 := pyHexNat_length_le n h16
  have hpy : pyHex (n : Int) = '0' :: 'x' :: pyHexNat n := by
    unfold pyHex
    rw [if_neg (not_lt.mpr (Int.natCast_nonneg n))]
    rw [Int.toNat_natCast]
  have hmem : ∀ c ∈ pyHexNat n, c ∈ hexCharsLower := pyHexNat_mem n
  have hzfill : pyZfillL 64 (pyHexNat n) =
      List.replicate (64 - (pyHexNat n).length) '0' ++ pyHexNat n := by
    apply pyZfillL_eq
    intro c hc
    have hcm := hmem c (head?_mem hc)
    exact ⟨(mem_hexCharsLower_ne c hcm).1, (mem_hexCharsLower_ne c hcm).2.1⟩
  have hdata : (encode_uint256 (n : Int)).data =
      List.replicate (64 - (pyHexNat n).length) '0' ++ pyHexNat n := by
    show pyZfillL 64 ((pyHex (n : Int)).drop 2) = _
    rw [hpy]
    exact hzfill
  refine ⟨hdata, ?_, ?_, ?_⟩
  · show (encode_uint256 (n : Int)).data.length = 64
    rw [hdata, List.length_append, List.length_replicate]
    omega
  · intro c hc
    rw [hdata] at hc
    rcases List.mem_append.mp hc with h' | h'
    · rw [List.eq_of_mem_replicate h']
      decide
    · exact hmem c h'
  · rw [hdata, fromHex_replicate_append, fromHex_pyHexNat]

/-- Witness for C6 at the program's own price constant. -/
theorem encode_uint256_uint256_range_witness :
    (500000000000000 : Nat) < 2 ^ 256 ∧
    ((encode_uint256 ((500000000000000 : Nat) : Int)).data =
      List.replicate (64 - (pyHexNat 500000000000000).length) '0' ++ pyHexNat 500000000000000 ∧
    (encode_uint256 ((500000000000000 : Nat) : Int)).length = 64 ∧
    (∀ c ∈ (encode_uint256 ((500000000000000 : Nat) : Int)).data, c ∈ hexCharsLower) ∧
    fromHex (encode_uint256 ((500000000000000 : Nat) : Int)).data = 500000000000000) :=
  ⟨by norm_num, encode_uint256_uint256_range 500000000000000 (by norm_num)⟩

/-- C7: for a valid 20-byte address — 40 hexadecimal characters in any
letter case, with or without a leading `0x`/`0X` prefix —
`encode_address` returns exactly 64 lowercase hexadecimal characters: the
prefix-stripped, lower-cased input left-padded with `'0'`s (24 of them) to
length 64. -/
theorem encode_address_valid (pre body : List Char)
    (hpre : pre = [] ∨ pre = ['0', 'x'] ∨ pre = ['0', 'X'])
    (hlen : body.length = 40)
    (hhex : ∀ c ∈ body, c ∈ hexCharsAll) :
    (encode_address ⟨pre ++ body⟩).data =
      List.replicate 24 '0' ++ body.map Char.toLower ∧
    (encode_address ⟨pre ++ body⟩).length = 64 ∧
    ∀ c ∈ (encode_address ⟨pre ++ body⟩).data, c ∈ hexCharsLower := by
  have hbody : ∀ c ∈ body.map Char.toLower, c ∈ hexCharsLower := by
    intro c hc
    rcases List.mem_map.mp hc with ⟨d, hd, rfl⟩
    exact toLower_mem_hexCharsLower d (hhex d hd)
  have hnox : ∀ c ∈ body.map Char.toLower, c ≠ 'x' :=
    fun c hc => (mem_hexCharsLower_ne c (hbody c hc)).2.2
  have hlen' : (body.map Char.toLower).length = 40 := by
    rw [List.length_map]
    exact hlen
  have hrep : pyReplace0xL ((pre ++ body).map Char.toLower) = body.map Char.toLower := by
    rw [List.map_append]
    rcases hpre with rfl | rfl | rfl
    · rw [List.map_nil, List.nil_append]
      exact pyReplace0xL_no_x _ hnox
    · rw [show (['0', 'x'] : List Char).map Char.toLower = ['0', 'x'] from by decide]
      show pyReplace0xL ('0' :: 'x' :: body.map Char.toLower) = _
      rw [show pyReplace0xL ('0' :: 'x' :: body.map Char.toLower) =
          pyReplace0xL (body.map Char.toLower) from by simp [pyReplace0xL]]
      exact pyReplace0xL_no_x _ hnox
    · rw [show (['0', 'X'] : List Char).map Char.toLower = ['0', 'x'] from by decide]
      show pyReplace0xL ('0' :: 'x' :: body.map Char.toLower) = _
      rw [show pyReplace0xL ('0' :: 'x' :: body.map Char.toLower) =
          pyReplace0xL (body.map Char.toLower) from by simp [pyReplace0xL]]
      exact pyReplace0xL_no_x _ hnox
  have hdata : (encode_address ⟨pre ++ body⟩).data =
      List.replicate 24 '0' ++ body.map Char.toLower := by
    show pyZfillL 64 (pyReplace0xL ((pre ++ body).map Char.toLower)) = _
    rw [hrep, pyZfillL_eq 64 _ (fun c hc => by
      have hcm := hbody c (head?_mem hc)
      exact ⟨(mem_hexCharsLower_ne c hcm).1, (mem_hexCharsLower_ne c hcm).2.1⟩), hlen']
  refine ⟨hdata, ?_, ?_⟩
  · show (encode_address ⟨pre ++ body⟩).data.length = 64
    rw [hdata, List.length_append, List.length_replicate, hlen']
  · intro c hc
    rw [hdata] at hc
    rcases List.mem_append.mp hc with h' | h'
    · rw [List.eq_of_mem_replicate h']
      decide
    · exact hbody c h'

/-- Witness for C7 at ClawRenderer's mixed-case address with `0x` prefix. -/
theorem encode_address_valid_witness :
    ((['0', 'x'] : List Char) = [] ∨ (['0', 'x'] : List Char) = ['0', 'x'] ∨
      (['0', 'x'] : List Char) = ['0', 'X']) ∧
    "90f493bfB740F00E6Cf280f4B9A6943d4b96d274".data.length = 40 ∧
    (∀ c ∈ "90f493bfB740F00E6Cf280f4B9A6943d4b96d274".data, c ∈ hexCharsAll) ∧
    ((encode_address ⟨['0', 'x'] ++ "90f493bfB740F00E6Cf280f4B9A6943d4b96d274".data⟩).data =
      List.replicate 24 '0' ++ "90f493bfB740F00E6Cf280f4B9A6943d4b96d274".data.map Char.toLower ∧
    (encode_address ⟨['0', 'x'] ++ "90f493bfB740F00E6Cf280f4B9A6943d4b96d274".data⟩).length = 64 ∧
    ∀ c ∈ (encode_address ⟨['0', 'x'] ++ "90f493bfB740F00E6Cf280f4B9A6943d4b96d274".data⟩).data,
      c ∈ hexCharsLower) :=
  ⟨by decide, by decide, by decide,
    encode_address_valid ['0', 'x'] "90f493bfB740F00E6Cf280f4B9A6943d4b96d274".data
      (by decide) (by decide) (by decide)⟩

/-- C8 counterexample: the claim's digit string `1c6bf526340000` has one
hex digit too many — it denotes `8000000000000000 = 16 * 500000000000000`.
`encode_uint256 500000000000000` is not 50 `'0'`s followed by those 14
digits. -/
theorem encode_uint256_literal_cex :
    encode_uint256 500000000000000 ≠
      ⟨List.replicate 50 '0' ++ "1c6bf526340000".data⟩ ∧
    fromHex "1c6bf526340000".data = 8000000000000000 := by
  decide

/-- C8 (amended): `encode_uint256 0` is 64 `'0'` characters, and
`encode_uint256 500000000000000` is 51 `'0'`s followed by the 13 hex
digits `1c6bf52634000`, which indeed denote `500000000000000`. -/
theorem encode_uint256_literals :
    encode_uint256 0 = ⟨List.replicate 64 '0'⟩ ∧
    encode_uint256 500000000000000 =
      ⟨List.replicate 51 '0' ++ "1c6bf52634000".data⟩ ∧
    fromHex "1c6bf52634000".data = 500000000000000 := by
  decide

/-! ## Lemmas about the orchestrator -/

theorem load_get_ok (env : Env)
    (h : env.buildFiles.filter (fun f => pyEndsWith f ".json") ≠ []) :
    load_source_code env = .ok (env.buildInput, env.solcVersion) ∧
    ∃ z, get_zksolc_version env = .ok z := by
  unfold load_source_code get_zksolc_version
  cases hf : env.buildFiles.filter (fun f => pyEndsWith f ".json") with
  | nil => exact absurd hf h
  | cons a t =>
    refine ⟨rfl, ?_⟩
    cases env.zkMetadataVersion with
    | some v => exact ⟨"v" ++ v, rfl⟩
    | none => exact ⟨"v1.5.10", rfl⟩

theorem submit_cases (env : Env) (name : String) (info : ContractInfo) (a b c : String)
    (hnt : ∀ s, env.submit s ≠ .transportError) :
    submit_verification env name info a b c = .ok none ∨
      ∃ id, submit_verification env name info a b c = .ok (some id) := by
  unfold submit_verification
  cases hs : env.submit (info.source ++ ":" ++ name) with
  | ok id => exact Or.inr ⟨id, rfl⟩
  | httpError code body => exact Or.inl rfl
  | transportError => exact absurd hs (hnt _)

theorem verifyOne_isOk (env : Env) (name : String) (info : ContractInfo) (a b c : String)
    (hnt : ∀ s, env.submit s ≠ .transportError) :
    ∃ r, verifyOne env name info a b c = .ok r := by
  unfold verifyOne
  rcases submit_cases env name info a b c hnt with h | ⟨id, h⟩
  · rw [h]
    exact ⟨_, rfl⟩
  · rw [h]
    show ∃ r,
      (match wait_for_verification (env.polls id) with
        | (true, _) => (Except.ok "VERIFIED" : Except PyError String)
        | (false, err) => Except.ok ("FAILED: " ++ pyStr err)) = Except.ok r
    rcases hw : wait_for_verification (env.polls id) with ⟨succ, err⟩
    cases succ
    · exact ⟨_, rfl⟩
    · exact ⟨_, rfl⟩

theorem verifyAll_no_transport (env : Env) (a b c : String)
    (hnt : ∀ s, env.submit s ≠ .transportError) :
    ∀ l : List (String × ContractInfo),
      ∃ rs, verifyAll env a b c l = .ok rs ∧
        rs.map Prod.fst = l.map Prod.fst ∧
        ∀ nm i r, (nm, i) ∈ l → verifyOne env nm i a b c = .ok r → (nm, r) ∈ rs := by
  intro l
  induction l with
  | nil => exact ⟨[], rfl, rfl, by simp⟩
  | cons p rest ih =>
    obtain ⟨nm₀, i₀⟩ := p
    obtain ⟨rs, hrs, hmap, hmem⟩ := ih
    obtain ⟨r₀, hr₀⟩ := verifyOne_isOk env nm₀ i₀ a b c hnt
    refine ⟨(nm₀, r₀) :: rs, ?_, ?_, ?_⟩
    · simp only [verifyAll]
      rw [hr₀, hrs]
    · simp [hmap]
    · intro nm i r hm hok
      rcases List.mem_cons.mp hm with heq | htail
      · injection heq with h1 h2
        subst h1
        subst h2
        rw [hok] at hr₀
        injection hr₀ with hr
        rw [hr]
        exact List.mem_cons_self _ _
      · exact List.mem_cons_of_mem _ (hmem nm i r htail hok)

/-! ## Claim theorems: orchestrator and client (C2, C3, C4, C9, C10) -/

theorem main_ok_all (env : Env) (results : List (String × String)) (ok : Bool)
    (h : main env = .ok (results, ok)) :
    ok = results.all fun p => p.2 == "VERIFIED" := by
  unfold main at h
  cases hl : load_source_code env with
  | error e => simp [hl] at h
  | ok v =>
    obtain ⟨sc, sv⟩ := v
    cases hz : get_zksolc_version env with
    | error e => simp [hl, hz] at h
    | ok z =>
      cases hr : verifyAll env sc sv z (compute_constructor_args CONTRACTS) with
      | error e => simp [hl, hz, hr] at h
      | ok rs =>
        simp only [hl, hz, hr] at h
        injection h with h1
        injection h1 with h2 h3
        subst h2
        exact h3.symm

/-- C2: whenever `main` runs to completion and produces the final results
report, its boolean is `true` exactly when every contract's entry equals
`"VERIFIED"`; the process exit code is then `0` in exactly that case, and
`1` otherwise (it is always one of the two). -/
theorem exit_code_iff (env : Env) (results : List (String × String)) (ok : Bool)
    (h : main env = .ok (results, ok)) :
    (ok = true ↔ ∀ p ∈ results, p.2 = "VERIFIED") ∧
    (program_exit_code env = .ok 0 ↔ ∀ p ∈ results, p.2 = "VERIFIED") ∧
    (program_exit_code env = .ok 0 ∨ program_exit_code env = .ok 1) := by
  have hok := main_ok_all env results ok h
  have hiff : ok = true ↔ ∀ p ∈ results, p.2 = "VERIFIED" := by
    rw [hok, List.all_eq_true]
    simp only [beq_iff_eq]
  refine ⟨hiff, ?_, ?_⟩
  · rw [← hiff]
    unfold program_exit_code
    rw [h]
    cases ok
    · simp
    · simp
  · unfold program_exit_code
    rw [h]
    cases ok
    · exact Or.inr rfl
    · exact Or.inl rfl

/-- A concrete run in which every submission succeeds and every first poll
returns `successful`. -/
def envAllOk : Env :=
  ⟨["build.json"], "standard-json-input", "0.8.24", some "1.5.11",
    fun _ => .ok 1, fun _ _ => ⟨some "successful", none⟩⟩

/-- Witness for C2: on `envAllOk`, `main` returns four `VERIFIED` entries
and `true`, and the exit code is `0`. -/
theorem exit_code_iff_witness :
    main envAllOk = .ok ([("ClawRenderer", "VERIFIED"), ("ClawRegistry", "VERIFIED"),
      ("ClawEvolution", "VERIFIED"), ("ClawReputation", "VERIFIED")], true) ∧
    ((true = true ↔ ∀ p ∈ [("ClawRenderer", "VERIFIED"), ("ClawRegistry", "VERIFIED"),
        ("ClawEvolution", "VERIFIED"), ("ClawReputation", "VERIFIED")], p.2 = "VERIFIED") ∧
    (program_exit_code envAllOk = .ok 0 ↔
      ∀ p ∈ [("ClawRenderer", "VERIFIED"), ("ClawRegistry", "VERIFIED"),
        ("ClawEvolution", "VERIFIED"), ("ClawReputation", "VERIFIED")], p.2 = "VERIFIED") ∧
    (program_exit_code envAllOk = .ok 0 ∨ program_exit_code envAllOk = .ok 1)) :=
  ⟨rfl, exit_code_iff envAllOk
    [("ClawRenderer", "VERIFIED"), ("ClawRegistry", "VERIFIED"),
      ("ClawEvolution", "VERIFIED"), ("ClawReputation", "VERIFIED")] true rfl⟩

theorem waitLoop_timeout (polls : Nat → StatusRecord) :
    ∀ remaining i : Nat,
      (∀ j, j < remaining →
        ((polls (i + j)).status.getD "unknown") ≠ "successful" ∧
        ((polls (i + j)).status.getD "unknown") ≠ "failed") →
      waitLoop polls remaining i = ((false, some "Timeout waiting for verification"), remaining) := by
  intro remaining
  induction remaining with
  | zero =>
    intro i _
    rfl
  | succ remaining ih =>
    intro i h
    have h0 := h 0 (Nat.succ_pos _)
    rw [Nat.add_zero] at h0
    have hrec := ih (i + 1) (fun j hj => by
      have hh := h (j + 1) (by omega)
      rw [show i + (j + 1) = i + 1 + j by omega] at hh
      exact hh)
    simp only [waitLoop, check_status]
    rw [if_neg h0.1, if_neg h0.2, hrec]

/-- C3: if none of the first 15 polled statuses is `successful` or
`failed` (whether `in_progress`, `queued`, any unrecognized string, or a
missing `status` field), then `wait_for_verification` with its default
`max_retries = 15` returns `(false, some "Timeout waiting for
verification")`, having performed exactly 15 status polls; being a total
function of the response stream, it raises nothing. -/
theorem wait_for_verification_timeout (polls : Nat → StatusRecord)
    (h : ∀ i, i < 15 →
      ((polls i).status.getD "unknown") ≠ "successful" ∧
      ((polls i).status.getD "unknown") ≠ "failed") :
    wait_for_verification polls = (false, some "Timeout waiting for verification") ∧
    wait_polls polls = 15 := by
  have hl := waitLoop_timeout polls 15 0 (fun j hj => by simpa using h j hj)
  constructor
  · unfold wait_for_verification
    rw [hl]
  · unfold wait_polls
    rw [hl]

/-- Witness for C3: a service that answers `in_progress` forever. -/
theorem wait_for_verification_timeout_witness :
    (∀ i, i < 15 →
      (((fun _ => (⟨some "in_progress", none⟩ : StatusRecord)) i).status.getD "unknown") ≠
        "successful" ∧
      (((fun _ => (⟨some "in_progress", none⟩ : StatusRecord)) i).status.getD "unknown") ≠
        "failed") ∧
    (wait_for_verification (fun _ => (⟨some "in_progress", none⟩ : StatusRecord)) =
      (false, some "Timeout waiting for verification") ∧
    wait_polls (fun _ => (⟨some "in_progress", none⟩ : StatusRecord)) = 15) :=
  ⟨by decide, wait_for_verification_timeout _ (by decide)⟩

/-- C4: if the service answers one registry contract's submission with a
non-2xx HTTP error (while no submission hits a transport failure and the
build-info directory has a `.json` file so the loader succeeds), then
`submit_verification` returns `none` instead of raising, that contract is
recorded as `"FAILED (submission error)"`, every contract of the registry
is still attempted in order, and the run fails with exit code 1. -/
theorem submit_http_error_recovered (env : Env) (name : String) (info : ContractInfo)
    (code : Nat) (body : String)
    (hload : env.buildFiles.filter (fun f => pyEndsWith f ".json") ≠ [])
    (hnt : ∀ s, env.submit s ≠ .transportError)
    (hmem : (name, info) ∈ compute_constructor_args CONTRACTS)
    (hhttp : env.submit (info.source ++ ":" ++ name) = .httpError code body) :
    ∃ results, main env = .ok (results, false) ∧
      results.map Prod.fst = ["ClawRenderer", "ClawRegistry", "ClawEvolution", "ClawReputation"] ∧
      (name, "FAILED (submission error)") ∈ results ∧
      program_exit_code env = .ok 1 := by
  obtain ⟨hl, z, hz⟩ := load_get_ok env hload
  obtain ⟨rs, hrs, hmap, hmemr⟩ :=
    verifyAll_no_transport env env.buildInput env.solcVersion z hnt
      (compute_constructor_args CONTRACTS)
  have hsub : submit_verification env name info env.buildInput env.solcVersion z = .ok none := by
    unfold submit_verification
    rw [hhttp]
  have hone : verifyOne env name info env.buildInput env.solcVersion z =
      .ok "FAILED (submission error)" := by
    unfold verifyOne
    rw [hsub]
  have hfmem : (name, "FAILED (submission error)") ∈ rs := hmemr name info _ hmem hone
  have hall : rs.all (fun p => p.2 == "VERIFIED") = false := by
    cases hall : rs.all (fun p => p.2 == "VERIFIED") with
    | false => rfl
    | true =>
      have h1 := List.all_eq_true.mp hall _ hfmem
      have h2 : (("FAILED (submission error)" : String) == "VERIFIED") = true := h1
      exact absurd h2 (by decide)
  have hmain : main env = .ok (rs, false) := by
    have h1 : main env = .ok (rs, rs.all fun p => p.2 == "VERIFIED") := by
      unfold main
      simp only [hl, hz, hrs]
    rw [h1, hall]
  refine ⟨rs, hmain, ?_, hfmem, ?_⟩
  · rw [hmap]
    decide
  · unfold program_exit_code
    rw [hmain]

/-- Environment for the C4 witness: ClawRenderer's submission gets HTTP
400, every other submission succeeds and verifies on the first poll. -/
def envHttpErr : Env :=
  ⟨["build.json"], "standard-json-input", "0.8.24", none,
    fun s => if s == "contracts/ClawRenderer.sol:ClawRenderer"
      then .httpError 400 "compilation failed" else .ok 3,
    fun _ _ => ⟨some "successful", none⟩⟩

theorem envHttpErr_no_transport : ∀ s, envHttpErr.submit s ≠ .transportError := by
  intro s
  show (if s == "contracts/ClawRenderer.sol:ClawRenderer"
      then SubmitResp.httpError 400 "compilation failed" else SubmitResp.ok 3) ≠
    SubmitResp.transportError
  split
  · exact fun h => SubmitResp.noConfusion h
  · exact fun h => SubmitResp.noConfusion h

/-- Witness for C4 with ClawRenderer as the rejected contract. -/
theorem submit_http_error_recovered_witness :
    (envHttpErr.buildFiles.filter (fun f => pyEndsWith f ".json") ≠ []) ∧
    (∀ s, envHttpErr.submit s ≠ .transportError) ∧
    (("ClawRenderer", (⟨"0x90f493bfB740F00E6Cf280f4B9A6943d4b96d274",
        "contracts/ClawRenderer.sol", some "0x"⟩ : ContractInfo)) ∈
      compute_constructor_args CONTRACTS) ∧
    (envHttpErr.submit (("contracts/ClawRenderer.sol" : String) ++ ":" ++ "ClawRenderer") =
      .httpError 400 "compilation failed") ∧
    (∃ results, main envHttpErr = .ok (results, false) ∧
      results.map Prod.fst = ["ClawRenderer", "ClawRegistry", "ClawEvolution", "ClawReputation"] ∧
      ("ClawRenderer", "FAILED (submission error)") ∈ results ∧
      program_exit_code envHttpErr = .ok 1) :=
  ⟨by decide, envHttpErr_no_transport, by decide, by decide,
    submit_http_error_recovered envHttpErr "ClawRenderer"
      ⟨"0x90f493bfB740F00E6Cf280f4B9A6943d4b96d274", "contracts/ClawRenderer.sol", some "0x"⟩
      400 "compilation failed" (by decide) envHttpErr_no_transport (by decide) (by decide)⟩

/-- C9: when the build-info directory listing contains no `.json` file,
`load_source_code` raises (`IndexError` from `files[0]`) rather than
returning a value, and `main` aborts with that same error.  The third
conjunct makes the "before any network call" part formal: the abort
happens whatever the network mock would have answered. -/
theorem load_source_code_empty_aborts (env : Env)
    (h : env.buildFiles.filter (fun f => pyEndsWith f ".json") = []) :
    load_source_code env = .error .indexError ∧
    main env = .error .indexError ∧
    ∀ submit polls,
      main ⟨env.buildFiles, env.buildInput, env.solcVersion, env.zkMetadataVersion,
        submit, polls⟩ = .error .indexError := by
  have hl : load_source_code env = .error .indexError := by
    unfold load_source_code
    rw [h]
  refine ⟨hl, ?_, ?_⟩
  · unfold main
    rw [hl]
  · intro submit polls
    have hl' : load_source_code ⟨env.buildFiles, env.buildInput, env.solcVersion,
        env.zkMetadataVersion, submit, polls⟩ = .error .indexError := hl
    unfold main
    rw [hl']

/-- Environment for the C9 witness: the build-info directory holds no
`.json` file. -/
def envNoJson : Env :=
  ⟨["README.md"], "", "", none, fun _ => .ok 0, fun _ _ => ⟨none, none⟩⟩

/-- Witness for C9. -/
theorem load_source_code_empty_aborts_witness :
    (envNoJson.buildFiles.filter (fun f => pyEndsWith f ".json") = []) ∧
    (load_source_code envNoJson = .error .indexError ∧
    main envNoJson = .error .indexError ∧
    ∀ submit polls,
      main ⟨envNoJson.buildFiles, envNoJson.buildInput, envNoJson.solcVersion,
        envNoJson.zkMetadataVersion, submit, polls⟩ = .error .indexError) :=
  ⟨by decide, load_source_code_empty_aborts envNoJson (by decide)⟩

/-- C10: a transport-level failure during submission that is not an
HTTP-status error (a `URLError`, e.g. connection refused) is not caught by
`submit_verification` — only `HTTPError` is handled — so when
ClawRenderer's POST raises one, the exception propagates out of `main` and
aborts the entire run with no final report; by contrast, a non-2xx HTTP
response on the very same request is caught and recovered into `.ok
none`. -/
theorem submit_transport_error_aborts (env : Env)
    (hload : env.buildFiles.filter (fun f => pyEndsWith f ".json") ≠ [])
    (ht : env.submit "contracts/ClawRenderer.sol:ClawRenderer" = .transportError) :
    (∀ a b c info, ContractInfo.source info = "contracts/ClawRenderer.sol" →
      submit_verification env "ClawRenderer" info a b c = .error .urlError) ∧
    main env = .error .urlError ∧
    (∀ env₂ code body a b c info, ContractInfo.source info = "contracts/ClawRenderer.sol" →
      Env.submit env₂ "contracts/ClawRenderer.sol:ClawRenderer" = .httpError code body →
      submit_verification env₂ "ClawRenderer" info a b c = .ok none) := by
  have hkey : ∀ info : ContractInfo, info.source = "contracts/ClawRenderer.sol" →
      info.source ++ ":" ++ "ClawRenderer" = "contracts/ClawRenderer.sol:ClawRenderer" := by
    intro info hi
    rw [hi]
    decide
  have hsubm : ∀ a b c info, ContractInfo.source info = "contracts/ClawRenderer.sol" →
      submit_verification env "ClawRenderer" info a b c = .error .urlError := by
    intro a b c info hi
    unfold submit_verification
    rw [hkey info hi, ht]
  refine ⟨hsubm, ?_, ?_⟩
  · obtain ⟨hl, z, hz⟩ := load_get_ok env hload
    obtain ⟨i₀, rest, hsplit, hi₀⟩ : ∃ i₀ rest,
        compute_constructor_args CONTRACTS = ("ClawRenderer", i₀) :: rest ∧
        ContractInfo.source i₀ = "contracts/ClawRenderer.sol" := ⟨_, _, rfl, rfl⟩
    have hone : verifyOne env "ClawRenderer" i₀ env.buildInput env.solcVersion z =
        .error .urlError := by
      unfold verifyOne
      rw [hsubm env.buildInput env.solcVersion z i₀ hi₀]
    have hallv : verifyAll env env.buildInput env.solcVersion z
        (compute_constructor_args CONTRACTS) = .error .urlError := by
      rw [hsplit]
      simp only [verifyAll]
      rw [hone]
    unfold main
    simp only [hl, hz, hallv]
  · intro env₂ code body a b c info hi hh
    unfold submit_verification
    rw [hkey info hi, hh]

/-- Environment for the C10 witness: ClawRenderer's POST fails at the
transport level; everything else would have succeeded. -/
def envTransport : Env :=
  ⟨["build.json"], "standard-json-input", "0.8.24", none,
    fun s => if s == "contracts/ClawRenderer.sol:ClawRenderer"
      then .transportError else .ok 3,
    fun _ _ => ⟨some "successful", none⟩⟩

/-- Witness for C10. -/
theorem submit_transport_error_aborts_witness :
    (envTransport.buildFiles.filter (fun f => pyEndsWith f ".json") ≠ []) ∧
    (envTransport.submit "contracts/ClawRenderer.sol:ClawRenderer" = .transportError) ∧
    ((∀ a b c info, ContractInfo.source info = "contracts/ClawRenderer.sol" →
      submit_verification envTransport "ClawRenderer" info a b c = .error .urlError) ∧
    main envTransport = .error .urlError ∧
    (∀ env₂ code body a b c info, ContractInfo.source info = "contracts/ClawRenderer.sol" →
      Env.submit env₂ "contracts/ClawRenderer.sol:ClawRenderer" = .httpError code body →
      submit_verification env₂ "ClawRenderer" info a b c = .ok none)) :=
  ⟨by decide, by decide, submit_transport_error_aborts envTransport (by decide) (by decide)⟩

end VerifyDirect
